import Mathlib

/-!
Verification of the scoring / prioritization core of the IIoT predictive-maintenance
repository (Next.js dashboard + FastAPI scoring backend).

Shallow embedding conventions:
- JS / Python `number` (f64) values that only enter threshold comparisons and affine
  arithmetic are modelled as `ℚ`; values the data model declares integral
  (the 0–100 aggregate health score) are modelled as `ℤ`; counts as `ℕ`.
- Dates are modelled as day numbers (`ℚ`), so `date.setDate(date.getDate() + k)`
  becomes addition of `k` days.
- TS string-union enums become inductive types; optional fields become `Option`.
- React component state becomes an explicit state record, an event handler becomes a
  function from the old state (plus the data it reads) to the new state.
-/

/-- Reading status, the TS union of NORMAL, WARNING, ANOMALY
(`types/index.ts`, `nextjs-components/StatusBadge.tsx`). -/
inductive Status where
  | NORMAL
  | WARNING
  | ANOMALY
deriving DecidableEq, Repr

/-- Modelled from the spec: the backend status classifier is not under `src/`
(only `README.md` documents it).  Spec §4.2 / README "Status mapping":
`ANOMALY`: score < 0.1; `WARNING`: 0.1 ≤ score < 0.3; `NORMAL`: score ≥ 0.3. -/
def statusOf (score : ℚ) : Status :=
  if score < 1/10 then Status.ANOMALY
  else if score < 3/10 then Status.WARNING
  else Status.NORMAL

/-- Modelled from the spec: the backend fallback heuristic scorer is not under
`src/`.  Spec §4.1: `score = 1 - max(vibration/expected_max_vibration,
temperature/expected_max_temperature)`, clamped to `[0,1]`. -/
def fallbackScore (vibration temperature expMaxVib expMaxTemp : ℚ) : ℚ :=
  min 1 (max 0 (1 - max (vibration / expMaxVib) (temperature / expMaxTemp)))

/-- C1: on `[0,1]` the three status classes are exactly the bands
`score < 0.10` (ANOMALY), `0.10 ≤ score < 0.30` (WARNING), `score ≥ 0.30` (NORMAL);
the iff-characterisations make the classes a partition of `[0,1]` with no gaps or
overlaps; the boundary score `0.10` — in particular the fallback score of the
reading `{vibration:90, temperature:50}` with ceilings `100/100` — is WARNING. -/
theorem statusOf_partitions_unit_interval (s : ℚ) (h0 : 0 ≤ s) (h1 : s ≤ 1) :
    ((statusOf s = Status.ANOMALY ↔ s < 1/10) ∧
     (statusOf s = Status.WARNING ↔ 1/10 ≤ s ∧ s < 3/10) ∧
     (statusOf s = Status.NORMAL ↔ 3/10 ≤ s)) ∧
    fallbackScore 90 50 100 100 = 1/10 ∧
    statusOf (1/10) = Status.WARNING := by
  refine ⟨?_, by unfold fallbackScore; norm_num, by unfold statusOf; norm_num⟩
  unfold statusOf
  split_ifs with ha hb
  · exact ⟨iff_of_true rfl ha,
      iff_of_false (by simp) (fun hc => absurd hc.1 (not_le.mpr ha)),
      iff_of_false (by simp)
        (fun hc => absurd (lt_of_lt_of_le ha (by norm_num)) (not_lt.mpr hc))⟩
  · exact ⟨iff_of_false (by simp) ha,
      iff_of_true rfl ⟨not_lt.mp ha, hb⟩,
      iff_of_false (by simp) (fun hc => absurd hb (not_lt.mpr hc))⟩
  · exact ⟨iff_of_false (by simp) ha,
      iff_of_false (by simp) (fun hc => hb hc.2),
      iff_of_true rfl (not_lt.mp hb)⟩

/-- Witness for C1 at the concrete score `1/2`: the hypotheses `0 ≤ 1/2 ≤ 1` hold and
the classifier places `1/2` in the NORMAL band. -/
theorem statusOf_partitions_unit_interval_witness :
    statusOf (1/2) = Status.NORMAL :=
  ((statusOf_partitions_unit_interval (1/2) (by norm_num) (by norm_num)).1.2.2).mpr
    (by norm_num)

/-- A Pareto entry as consumed by the dashboard, TS interface `ParetoData` in
`services/web-frontend/components/ParetoChart.tsx`. -/
structure ParetoData where
  factor : String
  count : ℕ
  percentage : ℚ
  cumulative : ℚ
  cost_estimate : Option ℚ
deriving DecidableEq, Repr

/-- `const isVital = item.cumulative <= 80` (`ParetoChart.tsx`, bar colouring and
legend). -/
def isVital (item : ParetoData) : Bool :=
  decide (item.cumulative ≤ 80)

/-- Ordering of tagged events: descending by count, ties broken by factor name
(ascending) for determinism. -/
def eventBefore (a b : String × ℕ) : Bool :=
  decide (b.2 < a.2) || (decide (a.2 = b.2) && decide (a.1 ≤ b.1))

/-- Insert an event into a list sorted by `eventBefore`. -/
def insertEvent (x : String × ℕ) : List (String × ℕ) → List (String × ℕ)
  | [] => [x]
  | y :: ys => if eventBefore y x then y :: insertEvent x ys else x :: y :: ys

/-- Sort tagged events descending by count (ties by name). -/
def sortEvents (l : List (String × ℕ)) : List (String × ℕ) :=
  l.foldr insertEvent []

/-- Running accumulation of Pareto entries: `percentage = count / total * 100`,
`cumulative` = running sum of `percentage` in sorted order. -/
def paretoGo (total : ℚ) : ℚ → List (String × ℕ) → List ParetoData
  | _, [] => []
  | acc, (f, c) :: rest =>
      let pct : ℚ := (c : ℚ) / total * 100
      ⟨f, c, pct, acc + pct, none⟩ :: paretoGo total (acc + pct) rest

/-- Modelled from the spec: the backend Pareto analyzer is not under `src/`
(only the chart component that consumes its rows is).  Spec §4.5: group by factor
(inputs here are already grouped counts), sort descending by count with name
tie-break, `percentage = count / total_count * 100`, `cumulative` = running sum of
`percentage` in sorted order. -/
def paretoEntries (events : List (String × ℕ)) : List ParetoData :=
  paretoGo ((events.map (·.2)).sum : ℕ) 0 (sortEvents events)

/-- C2: an entry is vital iff its cumulative percentage is ≤ 80; whenever
`cumulative` is non-decreasing along the list, the vital entries form a prefix
(any entry before a vital entry is vital); and on the event set
`{A:50, B:30, C:15, D:5}` the analyzer yields `A:50/cum 50, B:30/cum 80,
C:15/cum 95, D:5/cum 100`, of which exactly `A` and `B` are vital
(`cum(B) = 80 ≤ 80`). -/
theorem pareto_vital_few_front :
    (∀ e : ParetoData, isVital e = true ↔ e.cumulative ≤ 80) ∧
    (∀ l : List ParetoData,
      l.Pairwise (fun a b => a.cumulative ≤ b.cumulative) →
      ∀ i j : Fin l.length, (i : ℕ) ≤ (j : ℕ) → isVital (l.get j) = true →
        isVital (l.get i) = true) ∧
    paretoEntries [("A", 50), ("B", 30), ("C", 15), ("D", 5)] =
      [⟨"A", 50, 50, 50, none⟩, ⟨"B", 30, 30, 80, none⟩,
       ⟨"C", 15, 15, 95, none⟩, ⟨"D", 5, 5, 100, none⟩] ∧
    ((paretoEntries [("A", 50), ("B", 30), ("C", 15), ("D", 5)]).filter
        isVital).map (·.factor) = ["A", "B"] := by
  have hex : paretoEntries [("A", 50), ("B", 30), ("C", 15), ("D", 5)] =
      [⟨"A", 50, 50, 50, none⟩, ⟨"B", 30, 30, 80, none⟩,
       ⟨"C", 15, 15, 95, none⟩, ⟨"D", 5, 5, 100, none⟩] := by
    simp [paretoEntries, sortEvents, insertEvent, eventBefore, paretoGo]
    norm_num
  refine ⟨fun e => by simp only [isVital, decide_eq_true_eq], ?_, hex, ?_⟩
  · intro l hl i j hij hj
    simp only [isVital, decide_eq_true_eq] at hj ⊢
    rcases Nat.lt_or_ge (i : ℕ) (j : ℕ) with hlt | hge
    · exact le_trans (List.pairwise_iff_get.mp hl i j hlt) hj
    · have : i = j := Fin.ext (Nat.le_antisymm hij hge)
      rw [this]
      exact hj
  · rw [hex]
    decide

/-- Witness for the C2 front-segment property at the two-entry list `[A, B]` of the worked
example, indices `0 ≤ 1`: entry `B` is vital (`80 ≤ 80`), hence so is entry `A`. -/
theorem pareto_vital_few_front_witness :
    isVital (([⟨"A", 50, 50, 50, none⟩, ⟨"B", 30, 30, 80, none⟩] :
        List ParetoData).get ⟨0, by decide⟩) = true :=
  pareto_vital_few_front.2.1 _ (by decide) ⟨0, by decide⟩ ⟨1, by decide⟩
    (by decide) (by decide)

/-- Task priority, the TS union of LOW, MEDIUM, HIGH. -/
inductive Priority where
  | LOW
  | MEDIUM
  | HIGH
deriving DecidableEq, Repr

/-- Task lifecycle status, the TS union of NOT_STARTED, IN_PROGRESS, DONE. -/
inductive TaskStatus where
  | NOT_STARTED
  | IN_PROGRESS
  | DONE
deriving DecidableEq, Repr

/-- Eisenhower quadrant values (data model §3; the maintenance page compares the
task field `eisenhowerQuadrant` against these four values). -/
inductive Quadrant where
  | DO_FIRST
  | SCHEDULE
  | DELEGATE
  | ELIMINATE
deriving DecidableEq, Repr

/-- A maintenance task as held by the maintenance page (`type Task` in the
maintenance page source, `src/unnamed/part_013`, named `MaintenanceTask` here
because `Task` is taken by the Lean core library); dates are day numbers,
the optional `eisenhowerQuadrant` string is one of the four quadrant values
when present. -/
structure MaintenanceTask where
  id : String
  equipmentId : String
  title : String
  description : String
  dueDate : ℚ
  priority : Priority
  status : TaskStatus
  anomalyId : Option String
  aiDetectedCause : Option String
  orderPriority : Option ℕ
  eisenhowerQuadrant : Option Quadrant
  autoCreated : Bool
deriving DecidableEq, Repr

/-- DO FIRST panel filter:
quadrant equal to DO_FIRST, or no quadrant and priority HIGH. -/
def inDoFirst (t : MaintenanceTask) : Bool :=
  t.eisenhowerQuadrant == some Quadrant.DO_FIRST ||
    (t.eisenhowerQuadrant == none && t.priority == Priority.HIGH)

/-- SCHEDULE panel filter:
quadrant equal to SCHEDULE, or no quadrant and priority MEDIUM. -/
def inSchedule (t : MaintenanceTask) : Bool :=
  t.eisenhowerQuadrant == some Quadrant.SCHEDULE ||
    (t.eisenhowerQuadrant == none && t.priority == Priority.MEDIUM)

/-- DELEGATE panel filter: quadrant equal to DELEGATE (no priority
fallback for this panel). -/
def inDelegate (t : MaintenanceTask) : Bool :=
  t.eisenhowerQuadrant == some Quadrant.DELEGATE

/-- ELIMINATE panel filter:
quadrant equal to ELIMINATE, or no quadrant and priority LOW. -/
def inEliminate (t : MaintenanceTask) : Bool :=
  t.eisenhowerQuadrant == some Quadrant.ELIMINATE ||
    (t.eisenhowerQuadrant == none && t.priority == Priority.LOW)

/-- C3: every task is displayed in exactly one Eisenhower quadrant panel — of the
four panel filters, exactly one accepts any given task: an explicit quadrant wins,
and otherwise the priority decides (HIGH → DO_FIRST, MEDIUM → SCHEDULE,
LOW → ELIMINATE). -/
theorem eisenhower_exactly_one_quadrant (t : MaintenanceTask) :
    ([inDoFirst t, inSchedule t, inDelegate t, inEliminate t].count true) = 1 := by
  obtain ⟨_, _, _, _, _, p, _, _, _, _, q, _⟩ := t
  rcases q with _ | q
  · cases p <;> rfl
  · cases q <;> rfl

/-- JavaScript `x || d` for an optional numeric field: `undefined` and `0` are
falsy and yield the default. -/
def jsOrNat : Option ℕ → ℕ → ℕ
  | none, d => d
  | some n, d => if n = 0 then d else n

/-- The quadrant sort key `(t.orderPriority || dflt)` used by the comparator
`(a, b) => (a.orderPriority || dflt) - (b.orderPriority || dflt)`; `dflt` is the
quadrant number (1 for DO_FIRST, 2 for SCHEDULE, 3 for DELEGATE,
4 for ELIMINATE). -/
def quadKey (dflt : ℕ) (t : MaintenanceTask) : ℕ :=
  jsOrNat t.orderPriority dflt

/-- Stable insertion into a key-sorted task list: the new task goes before the
first resident whose key is not strictly smaller, so residents with an equal key
keep their earlier position. -/
def insertTask (key : MaintenanceTask → ℕ) (x : MaintenanceTask) :
    List MaintenanceTask → List MaintenanceTask
  | [] => [x]
  | y :: ys => if key y < key x then y :: insertTask key x ys else x :: y :: ys

/-- `tasks.sort((a, b) => (a.orderPriority || dflt) - (b.orderPriority || dflt))`
from the matrix tab of the maintenance page: JavaScript `Array.prototype.sort` is
stable, so this is the stable sort by `quadKey dflt`. -/
def quadrantSort (dflt : ℕ) (l : List MaintenanceTask) : List MaintenanceTask :=
  l.foldr (insertTask (quadKey dflt)) []

/-- Every member of `insertTask key x l` is `x` or a member of `l`. -/
theorem insertTask_mem (key : MaintenanceTask → ℕ) (x : MaintenanceTask) :
    ∀ l : List MaintenanceTask, ∀ z ∈ insertTask key x l, z = x ∨ z ∈ l := by
  intro l
  induction l with
  | nil =>
      intro z hz
      simp [insertTask] at hz
      exact Or.inl hz
  | cons y ys ih =>
      intro z hz
      by_cases h : key y < key x
      · simp only [insertTask, if_pos h, List.mem_cons] at hz
        rcases hz with hz | hz
        · exact Or.inr (by simp [hz])
        · rcases ih z hz with h1 | h1
          · exact Or.inl h1
          · exact Or.inr (by simp [h1])
      · simp only [insertTask, if_neg h, List.mem_cons] at hz
        rcases hz with hz | hz
        · exact Or.inl hz
        · exact Or.inr (List.mem_cons.mpr hz)

/-- Inserting into a key-sorted list keeps it key-sorted. -/
theorem insertTask_pairwise (key : MaintenanceTask → ℕ) (x : MaintenanceTask) :
    ∀ l : List MaintenanceTask,
      l.Pairwise (fun a b => key a ≤ key b) →
      (insertTask key x l).Pairwise (fun a b => key a ≤ key b) := by
  intro l
  induction l with
  | nil =>
      intro _
      simp [insertTask]
  | cons y ys ih =>
      intro h
      rw [List.pairwise_cons] at h
      by_cases hc : key y < key x
      · simp only [insertTask, if_pos hc]
        rw [List.pairwise_cons]
        refine ⟨?_, ih h.2⟩
        intro z hz
        rcases insertTask_mem key x ys z hz with h1 | h1
        · rw [h1]
          exact le_of_lt hc
        · exact h.1 z h1
      · simp only [insertTask, if_neg hc]
        rw [List.pairwise_cons]
        refine ⟨?_, List.pairwise_cons.mpr h⟩
        intro z hz
        rcases List.mem_cons.mp hz with h1 | h1
        · rw [h1]
          exact not_lt.mp hc
        · exact le_trans (not_lt.mp hc) (h.1 z h1)

/-- Insertion is stable: restricted to any fixed key value `k`, inserting either
prepends `x` (when `key x = k`) or leaves the `k`-keyed subsequence unchanged. -/
theorem insertTask_filter (key : MaintenanceTask → ℕ) (x : MaintenanceTask)
    (k : ℕ) :
    ∀ l : List MaintenanceTask,
      (insertTask key x l).filter (fun t => key t == k) =
        if key x = k then x :: l.filter (fun t => key t == k)
        else l.filter (fun t => key t == k) := by
  intro l
  induction l with
  | nil =>
      by_cases h : key x = k <;> simp [insertTask, h]
  | cons y ys ih =>
      by_cases hc : key y < key x
      · simp only [insertTask, if_pos hc]
        by_cases hk : key x = k
        · have hyk : ¬ key y = k := by
            intro hy
            rw [hk] at hc
            rw [hy] at hc
            exact lt_irrefl k hc
          simp [List.filter_cons, hyk, hk, ih]
        · simp [List.filter_cons, hk, ih]
      · simp only [insertTask, if_neg hc]
        by_cases hk : key x = k
        · simp [List.filter_cons, hk]
        · simp [List.filter_cons, hk]

/-- C6 counterexample inputs: two DO_FIRST tasks with the same `orderPriority`
whose due dates are in descending order in the fetched list. -/
def taskEarlyDue : MaintenanceTask :=
  ⟨"T1", "MACHINE_002", "Replace bearing", "Worn bearing", 5, Priority.HIGH,
    TaskStatus.NOT_STARTED, none, none, some 2, some Quadrant.DO_FIRST, false⟩

/-- Second C6 counterexample input: same `orderPriority`, earlier due date. -/
def taskLateDue : MaintenanceTask :=
  ⟨"T2", "MACHINE_003", "Grease motor", "Dry gearbox", 2, Priority.HIGH,
    TaskStatus.NOT_STARTED, none, none, some 2, some Quadrant.DO_FIRST, false⟩

/-- C6 counterexample: the DO_FIRST panel sort keeps the fetched order
`[taskEarlyDue, taskLateDue]` although both tasks have `orderPriority = 2` and
`taskLateDue` is due earlier — equal `order_priority` ties are NOT reordered by
due date. -/
theorem quadrantSort_no_due_date_tiebreak :
    quadrantSort 1 [taskEarlyDue, taskLateDue] = [taskEarlyDue, taskLateDue] ∧
    quadKey 1 taskEarlyDue = quadKey 1 taskLateDue ∧
    taskLateDue.dueDate < taskEarlyDue.dueDate := by
  refine ⟨by decide, by decide, ?_⟩
  show (2 : ℚ) < 5
  norm_num

/-- C6 amended: within each quadrant panel tasks are listed in ascending order of
`orderPriority` (with `0`/missing defaulting to the quadrant number), and tasks
with equal keys keep their original fetched order (the sort is stable); ties are
not broken by due date. -/
theorem quadrantSort_sorted_and_stable (dflt : ℕ) (l : List MaintenanceTask) :
    (quadrantSort dflt l).Pairwise
      (fun a b => quadKey dflt a ≤ quadKey dflt b) ∧
    ∀ k : ℕ, (quadrantSort dflt l).filter (fun t => quadKey dflt t == k) =
      l.filter (fun t => quadKey dflt t == k) := by
  constructor
  · induction l with
    | nil => simp [quadrantSort]
    | cons x xs ih =>
        exact insertTask_pairwise (quadKey dflt) x _ ih
  · intro k
    induction l with
    | nil => simp [quadrantSort]
    | cons x xs ih =>
        show (insertTask (quadKey dflt) x (quadrantSort dflt xs)).filter _ = _
        rw [insertTask_filter]
        by_cases hk : quadKey dflt x = k
        · simp [List.filter_cons, hk, ih]
        · simp [List.filter_cons, hk, ih]

/-- RUL urgency tier (data model §3: `urgency ∈ {IMMEDIATE, HIGH, MEDIUM, LOW}`);
`HighP`/`MediumP`/`LowP`-like names are avoided by reusing the enum values. -/
inductive RULUrgency where
  | IMMEDIATE
  | HIGH
  | MEDIUM
  | LOW
deriving DecidableEq, Repr

/-- Modelled from the spec: the backend RUL urgency banding is not under `src/`.
Spec §4.4: `IMMEDIATE ≤ 3` days, `HIGH ≤ 7`, `MEDIUM ≤ 14`, else `LOW`. -/
def rulUrgency (days : ℚ) : RULUrgency :=
  if days ≤ 3 then RULUrgency.IMMEDIATE
  else if days ≤ 7 then RULUrgency.HIGH
  else if days ≤ 14 then RULUrgency.MEDIUM
  else RULUrgency.LOW

/-- `getUrgencyColor` from `MaintenanceForecast.tsx`: badge classes keyed on
days-until-maintenance with boundaries 3, 7, 14. -/
def getUrgencyColor (days : ℚ) : String :=
  if days ≤ 3 then "bg-red-500/10 text-red-500 border-red-500/30"
  else if days ≤ 7 then "bg-orange-500/10 text-orange-500 border-orange-500/30"
  else if days ≤ 14 then "bg-yellow-500/10 text-yellow-500 border-yellow-500/30"
  else "bg-green-500/10 text-green-500 border-green-500/30"

/-- `getUrgencyIcon` from `MaintenanceForecast.tsx`. -/
def getUrgencyIcon (days : ℚ) : String :=
  if days ≤ 3 then "🔴"
  else if days ≤ 7 then "🟠"
  else if days ≤ 14 then "🟡"
  else "🟢"

/-- The RUL card progress-bar colour from `RULPrediction` (source listing in
`SETUP-COMPLETE.md`): `rul_days ≤ 3` red, `≤ 7` orange, `≤ 14` yellow, else
green. -/
def rulProgressBarColor (rulDays : ℚ) : String :=
  if rulDays ≤ 3 then "bg-red-500"
  else if rulDays ≤ 7 then "bg-orange-500"
  else if rulDays ≤ 14 then "bg-yellow-500"
  else "bg-green-500"

/-- The badge class each RUL urgency tier corresponds to. -/
def urgencyTierColor : RULUrgency → String
  | RULUrgency.IMMEDIATE => "bg-red-500/10 text-red-500 border-red-500/30"
  | RULUrgency.HIGH => "bg-orange-500/10 text-orange-500 border-orange-500/30"
  | RULUrgency.MEDIUM => "bg-yellow-500/10 text-yellow-500 border-yellow-500/30"
  | RULUrgency.LOW => "bg-green-500/10 text-green-500 border-green-500/30"

/-- The icon each RUL urgency tier corresponds to. -/
def urgencyTierIcon : RULUrgency → String
  | RULUrgency.IMMEDIATE => "🔴"
  | RULUrgency.HIGH => "🟠"
  | RULUrgency.MEDIUM => "🟡"
  | RULUrgency.LOW => "🟢"

/-- The progress-bar colour each RUL urgency tier corresponds to. -/
def urgencyTierBar : RULUrgency → String
  | RULUrgency.IMMEDIATE => "bg-red-500"
  | RULUrgency.HIGH => "bg-orange-500"
  | RULUrgency.MEDIUM => "bg-yellow-500"
  | RULUrgency.LOW => "bg-green-500"

/-- C4: the days-until-maintenance urgency tier is exactly the four bands with
boundaries 3, 7 and 14 (`IMMEDIATE` iff `d ≤ 3`, `HIGH` iff `3 < d ≤ 7`,
`MEDIUM` iff `7 < d ≤ 14`, `LOW` iff `14 < d`), and the forecast badge colour,
the forecast icon and the RUL progress-bar colour all factor through these same
bands. -/
theorem urgency_four_bands_mirrored (d : ℚ) :
    ((rulUrgency d = RULUrgency.IMMEDIATE ↔ d ≤ 3) ∧
     (rulUrgency d = RULUrgency.HIGH ↔ 3 < d ∧ d ≤ 7) ∧
     (rulUrgency d = RULUrgency.MEDIUM ↔ 7 < d ∧ d ≤ 14) ∧
     (rulUrgency d = RULUrgency.LOW ↔ 14 < d)) ∧
    getUrgencyColor d = urgencyTierColor (rulUrgency d) ∧
    getUrgencyIcon d = urgencyTierIcon (rulUrgency d) ∧
    rulProgressBarColor d = urgencyTierBar (rulUrgency d) := by
  refine ⟨?_, ?_, ?_, ?_⟩
  · unfold rulUrgency
    split_ifs with h1 h2 h3
    · exact ⟨iff_of_true rfl h1,
        iff_of_false (by simp) (fun hc => absurd h1 (not_le.mpr hc.1)),
        iff_of_false (by simp)
          (fun hc => by have := lt_of_lt_of_le hc.1 h1; norm_num at this),
        iff_of_false (by simp)
          (fun hc => by have := lt_of_lt_of_le hc h1; norm_num at this)⟩
    · exact ⟨iff_of_false (by simp) h1,
        iff_of_true rfl ⟨not_le.mp h1, h2⟩,
        iff_of_false (by simp)
          (fun hc => by have := lt_of_lt_of_le hc.1 h2; norm_num at this),
        iff_of_false (by simp)
          (fun hc => by have := lt_of_lt_of_le hc h2; norm_num at this)⟩
    · exact ⟨iff_of_false (by simp) h1,
        iff_of_false (by simp) (fun hc => h2 hc.2),
        iff_of_true rfl ⟨not_le.mp h2, h3⟩,
        iff_of_false (by simp)
          (fun hc => by have := lt_of_lt_of_le hc h3; norm_num at this)⟩
    · exact ⟨iff_of_false (by simp) h1,
        iff_of_false (by simp) (fun hc => h2 hc.2),
        iff_of_false (by simp) (fun hc => h3 hc.2),
        iff_of_true rfl (not_le.mp h3)⟩
  · unfold getUrgencyColor rulUrgency urgencyTierColor
    split_ifs <;> rfl
  · unfold getUrgencyIcon rulUrgency urgencyTierIcon
    split_ifs <;> rfl
  · unfold rulProgressBarColor rulUrgency urgencyTierBar
    split_ifs <;> rfl

/-- The colour bundle returned by `HealthScoreCard.getColors`
(`components/HealthScoreCard.tsx`). -/
structure HealthColors where
  bg : String
  border : String
  text : String
  ring : String
deriving DecidableEq, Repr

/-- `HealthScoreCard.getColors`: five bands over the 0–100 health score with
boundaries 80, 60, 40, 20. -/
def getColors (score : ℤ) : HealthColors :=
  if score ≥ 80 then
    ⟨"bg-emerald-500/10", "border-emerald-500/30", "text-emerald-500",
      "stroke-emerald-500"⟩
  else if score ≥ 60 then
    ⟨"bg-green-500/10", "border-green-500/30", "text-green-500",
      "stroke-green-500"⟩
  else if score ≥ 40 then
    ⟨"bg-yellow-500/10", "border-yellow-500/30", "text-yellow-500",
      "stroke-yellow-500"⟩
  else if score ≥ 20 then
    ⟨"bg-orange-500/10", "border-orange-500/30", "text-orange-500",
      "stroke-orange-500"⟩
  else
    ⟨"bg-red-500/10", "border-red-500/30", "text-red-500", "stroke-red-500"⟩

/-- The machine status page inline health tier colouring
(`app/dashboard/status/page.tsx`): `≥ 80` green, `≥ 50` yellow, else red. -/
def statusPageHealthClass (score : ℤ) : String :=
  if score ≥ 80 then "text-green-400"
  else if score ≥ 50 then "text-yellow-400"
  else "text-red-400"

/-- C5 counterexample: the two health-score consumers do NOT place every score in
the same band — `HealthScoreCard.getColors` puts 45 and 55 in one band (yellow,
`40 ≤ s < 60`), while the status page colouring separates them (red vs yellow,
boundary 50). -/
theorem health_band_consumers_disagree :
    getColors 45 = getColors 55 ∧
    statusPageHealthClass 45 ≠ statusPageHealthClass 55 := by
  decide

/-- C5 amended: the status page inline colouring uses the bands `≥ 80`, `≥ 50`,
`< 50` — not the `HealthScoreCard.getColors` bands `≥ 80/≥ 60/≥ 40/≥ 20/< 20`; the
two consumers agree exactly on membership of the top `≥ 80` band. -/
theorem statusPage_health_bands (s : ℤ) :
    (statusPageHealthClass s = "text-green-400" ↔ 80 ≤ s) ∧
    (statusPageHealthClass s = "text-yellow-400" ↔ 50 ≤ s ∧ s < 80) ∧
    (statusPageHealthClass s = "text-red-400" ↔ s < 50) ∧
    ((getColors s).text = "text-emerald-500" ↔
      statusPageHealthClass s = "text-green-400") := by
  have hne : ∀ t : ℤ, t < 80 → (getColors t).text ≠ "text-emerald-500" := by
    intro t ht
    unfold getColors
    rw [if_neg (by exact not_le.mpr ht)]
    split_ifs <;> decide
  rcases le_or_lt 80 s with h80 | h80
  · have e1 : statusPageHealthClass s = "text-green-400" := by
      simp [statusPageHealthClass, h80]
    have e2 : (getColors s).text = "text-emerald-500" := by
      simp [getColors, h80]
    rw [e1, e2]
    exact ⟨iff_of_true rfl h80,
      iff_of_false (by decide) (fun hc => absurd h80 (not_le.mpr hc.2)),
      iff_of_false (by decide)
        (fun hc => by have := lt_of_le_of_lt h80 hc; norm_num at this),
      iff_of_true rfl rfl⟩
  · rcases le_or_lt 50 s with h50 | h50
    · have e1 : statusPageHealthClass s = "text-yellow-400" := by
        simp [statusPageHealthClass, not_le.mpr h80, h50]
      rw [e1]
      exact ⟨iff_of_false (by decide) (not_le.mpr h80),
        iff_of_true rfl ⟨h50, h80⟩,
        iff_of_false (by decide) (fun hc => absurd h50 (not_le.mpr hc)),
        iff_of_false (hne s h80) (by decide)⟩
    · have e1 : statusPageHealthClass s = "text-red-400" := by
        simp [statusPageHealthClass, not_le.mpr h80, not_le.mpr h50]
      rw [e1]
      exact ⟨iff_of_false (by decide) (not_le.mpr (lt_trans h50 (by norm_num))),
        iff_of_false (by decide) (fun hc => absurd hc.1 (not_le.mpr h50)),
        iff_of_true rfl h50,
        iff_of_false (hne s h80) (by decide)⟩

/-- The `health` object of a live reading (`HealthScore` in `types/index.ts`);
the tier string and urgency string are kept as strings as in the TS type. -/
structure HealthScore where
  score : ℤ
  status : String
  days_until_maintenance : ℚ
  maintenance_urgency : String
deriving DecidableEq, Repr

/-- One live reading (`LiveData` in `types/index.ts`). -/
structure LiveData where
  vibration : ℚ
  temperature : ℚ
  score : ℚ
  status : Status
  timestamp : String
  health : HealthScore
deriving DecidableEq, Repr

/-- The status value as the string it is interpolated as in TS template
literals. -/
def statusStr : Status → String
  | Status.NORMAL => "NORMAL"
  | Status.WARNING => "WARNING"
  | Status.ANOMALY => "ANOMALY"

/-- The JSON body POSTed to `/api/maintenance/tasks` by the three task-creating
handlers. -/
structure TaskDraft where
  equipmentId : String
  title : String
  description : String
  dueDate : ℚ
  priority : Priority
  anomalyId : Option String
  aiDetectedCause : String
deriving DecidableEq, Repr

/-- `getPriorityLevel` from `MaintenanceForecast.tsx`: `≤ 3` HIGH, `≤ 7` MEDIUM,
else LOW. -/
def getPriorityLevel (days : ℚ) : Priority :=
  if days ≤ 3 then Priority.HIGH
  else if days ≤ 7 then Priority.MEDIUM
  else Priority.LOW

/-- `getPriorityLevel` from `RULPrediction` (source listing in
`SETUP-COMPLETE.md`): IMMEDIATE/HIGH → HIGH, MEDIUM → MEDIUM, else LOW. -/
def rulPriorityLevel : RULUrgency → Priority
  | RULUrgency.IMMEDIATE => Priority.HIGH
  | RULUrgency.HIGH => Priority.HIGH
  | RULUrgency.MEDIUM => Priority.MEDIUM
  | RULUrgency.LOW => Priority.LOW

/-- The RUL row consumed by `RULPrediction.handleAddToCalendar` (fields of
`RULData` used by that handler). -/
structure RULData where
  machine_id : String
  rul_days : ℚ
  health_score : ℚ
  confidence : ℚ
  degradation_rate : ℚ
  critical_factors : List String
  recommendation : String
  status : String
  urgency : RULUrgency
deriving DecidableEq, Repr

/-- `MaintenanceForecast.handleAddToCalendar`: the task draft it POSTs.
`today` is the creation date as a day number; the source computes
`dueDate = new Date(); dueDate.setDate(dueDate.getDate() + Math.max(1, daysUntilMaintenance - 1))`
and sends `anomalyId: null`. -/
def forecastDraft (machineId machineName : String) (healthScore : ℚ)
    (daysUntilMaintenance : ℚ) (criticalFactors : List String)
    (today : ℚ) : TaskDraft :=
  { equipmentId := machineId
    title := "Scheduled maintenance for " ++ machineName
    description :=
      "Predicted maintenance required based on AI analysis.\n\nHealth Score: " ++
        toString healthScore ++ "%\nDays until service: " ++
        toString daysUntilMaintenance ++ "\n\nCritical factors:\n" ++
        String.intercalate "\n" (criticalFactors.map (fun f => "- " ++ f))
    dueDate := today + max 1 (daysUntilMaintenance - 1)
    priority := getPriorityLevel daysUntilMaintenance
    anomalyId := none
    aiDetectedCause :=
      "Predictive maintenance scheduling. Current health: " ++
        toString healthScore ++ "%. Estimated " ++
        toString daysUntilMaintenance ++ " days until service required." }

/-- `RULPrediction.handleAddToCalendar` (source listing in `SETUP-COMPLETE.md`):
the task draft it POSTs; same `Math.max(1, rul_days - 1)` due-date offset, and
`anomalyId: null`. -/
def rulDraft (data : RULData) (today : ℚ) : TaskDraft :=
  { equipmentId := data.machine_id
    title := "RUL-predicted maintenance for " ++ data.machine_id
    description :=
      "ML-predicted maintenance based on RUL analysis.\n\nRemaining Useful Life: " ++
        toString data.rul_days ++ " days\nHealth Score: " ++
        toString data.health_score ++ "%\nConfidence: " ++
        toString data.confidence ++ "%\nDegradation Rate: " ++
        toString data.degradation_rate ++ "%/day\n\nCritical Factors:\n" ++
        String.intercalate "\n" (data.critical_factors.map (fun f => "- " ++ f)) ++
        "\n\nRecommendation: " ++ data.recommendation
    dueDate := today + max 1 (data.rul_days - 1)
    priority := rulPriorityLevel data.urgency
    anomalyId := none
    aiDetectedCause :=
      "RUL Prediction: " ++ toString data.rul_days ++ " days remaining. Status: " ++
        data.status ++ ". " ++ data.recommendation }

/-- The `aiCause` string built by `handleCreateTask` on the anomaly page
(`app/dashboard/status/page.tsx`). -/
def anomalyCause (live : Option LiveData) : String :=
  match live with
  | some ld =>
      "Vibration: " ++ toString ld.vibration ++ ", Temperature: " ++
        toString ld.temperature ++ ", Health Score: " ++
        toString ld.health.score ++ ". Status: " ++ statusStr ld.status
  | none => "Anomaly detected by AI system"

/-- `handleCreateTask` on the anomaly page: the task draft it POSTs (title,
description, due date and priority come from the dialog form state; `anomalyId`
is the generated anomaly id string). -/
def handleCreateTaskDraft (machineId : String) (live : Option LiveData)
    (anomalyId : String) (title description : String) (due : ℚ)
    (prio : Priority) : TaskDraft :=
  { equipmentId := machineId
    title := title
    description := description
    dueDate := due
    priority := prio
    anomalyId := some anomalyId
    aiDetectedCause := anomalyCause live }

/-- `sub` occurs contiguously inside `big` (stated on the underlying character
lists). -/
def containsSub (sub big : String) : Prop :=
  ∃ pre post : List Char, pre ++ sub.data ++ post = big.data

/-- C7 counterexample: the forecast-created task draft (an automatically created
draft from a prediction) has `anomalyId = null`, so not every auto-created task
references an originating anomaly event. -/
theorem forecast_draft_has_no_anomaly_id :
    (forecastDraft "MACHINE_002" "Conveyor Belt" 75 10 [] 0).anomalyId = none ∧
    (rulDraft ⟨"MACHINE_003", 12, 80, 70, 2, [], "Monitor", "GOOD",
        RULUrgency.MEDIUM⟩ 0).anomalyId = none := ⟨rfl, rfl⟩

/-- C7 amended: a draft created from a detected anomaly (`handleCreateTask`)
carries `anomalyId` set to the generated anomaly id and an `ai_detected_cause`
containing the triggering vibration, temperature and detected status; the
auto-scheduled prediction drafts (`MaintenanceForecast` / `RULPrediction`
`handleAddToCalendar`) instead describe the prediction and always send
`anomalyId: null`. -/
theorem task_draft_traceability (machineId anomalyId title description : String)
    (due : ℚ) (prio : Priority) (ld : LiveData) (machineName : String)
    (healthScore days today : ℚ) (factors : List String) (rd : RULData) :
    (handleCreateTaskDraft machineId (some ld) anomalyId title description due
        prio).anomalyId = some anomalyId ∧
    containsSub (toString ld.vibration)
      (handleCreateTaskDraft machineId (some ld) anomalyId title description due
        prio).aiDetectedCause ∧
    containsSub (toString ld.temperature)
      (handleCreateTaskDraft machineId (some ld) anomalyId title description due
        prio).aiDetectedCause ∧
    containsSub (statusStr ld.status)
      (handleCreateTaskDraft machineId (some ld) anomalyId title description due
        prio).aiDetectedCause ∧
    (forecastDraft machineId machineName healthScore days factors
        today).anomalyId = none ∧
    (rulDraft rd today).anomalyId = none := by
  refine ⟨rfl, ?_, ?_, ?_, rfl, rfl⟩
  · refine ⟨"Vibration: ".data,
      (", Temperature: " ++ toString ld.temperature ++ ", Health Score: " ++
        toString ld.health.score ++ ". Status: " ++ statusStr ld.status).data, ?_⟩
    simp [handleCreateTaskDraft, anomalyCause]
  · refine ⟨("Vibration: " ++ toString ld.vibration ++ ", Temperature: ").data,
      (", Health Score: " ++ toString ld.health.score ++ ". Status: " ++
        statusStr ld.status).data, ?_⟩
    simp [handleCreateTaskDraft, anomalyCause]
  · refine ⟨("Vibration: " ++ toString ld.vibration ++ ", Temperature: " ++
        toString ld.temperature ++ ", Health Score: " ++
        toString ld.health.score ++ ". Status: ").data, [], ?_⟩
    simp [handleCreateTaskDraft, anomalyCause]

/-- C9: both auto-scheduling handlers set the due date to the creation date plus
`max(1, d - 1)` days, which is always at least one day after creation, whatever
`d` is (including `d ≤ 0`). -/
theorem auto_task_due_date (machineId machineName : String)
    (healthScore days today : ℚ) (factors : List String) (rd : RULData) :
    (forecastDraft machineId machineName healthScore days factors
        today).dueDate = today + max 1 (days - 1) ∧
    (rulDraft rd today).dueDate = today + max 1 (rd.rul_days - 1) ∧
    today + 1 ≤ (forecastDraft machineId machineName healthScore days factors
        today).dueDate ∧
    today + 1 ≤ (rulDraft rd today).dueDate := by
  refine ⟨rfl, rfl, ?_, ?_⟩
  · exact add_le_add_left (le_max_left 1 (days - 1)) today
  · exact add_le_add_left (le_max_left 1 (rd.rul_days - 1)) today

/-- The create-task dialog state owned by the anomaly page
(`app/dashboard/status/page.tsx`). -/
structure AnomalyPageState where
  isCreateTaskOpen : Bool
  taskTitle : String
  taskDescription : String
  taskDueDate : ℚ
  taskPriority : Priority
deriving DecidableEq, Repr

/-- `handleTakeAction`: only when the live status is exactly ANOMALY does it
pre-fill the form (title, description, due date three days out, priority from the
health score) and open the dialog; otherwise it returns the state unchanged. -/
def handleTakeAction (machineId : String) (live : Option LiveData) (now : ℚ)
    (s : AnomalyPageState) : AnomalyPageState :=
  match live with
  | some ld =>
      if ld.status = Status.ANOMALY then
        { isCreateTaskOpen := true
          taskTitle := "Investigate " ++ statusStr ld.status ++ " on " ++ machineId
          taskDescription :=
            "AI detected anomaly:\n- Vibration: " ++ toString ld.vibration ++
              "\n- Temperature: " ++ toString ld.temperature ++
              "\n- Health Score: " ++ toString ld.health.score ++
              "\n\nImmediate investigation required."
          taskDueDate := now + 3
          taskPriority :=
            if ld.health.score < 40 then Priority.HIGH else Priority.MEDIUM }
      else s
  | none => s

/-- `isAnomalyDetected`: the render condition of the Take Action button,
live data present with status ANOMALY or WARNING. -/
def isAnomalyDetected (live : Option LiveData) : Bool :=
  match live with
  | some ld => ld.status == Status.ANOMALY || ld.status == Status.WARNING
  | none => false

/-- C10: the Take Action button renders iff live data is present with status
ANOMALY or WARNING, and clicking it while the status is WARNING leaves the whole
dialog state (visibility, title, description, due date, priority) unchanged. -/
theorem take_action_warning_is_noop :
    (∀ live : Option LiveData, isAnomalyDetected live = true ↔
      ∃ ld, live = some ld ∧
        (ld.status = Status.ANOMALY ∨ ld.status = Status.WARNING)) ∧
    (∀ (machineId : String) (ld : LiveData) (now : ℚ) (s : AnomalyPageState),
      ld.status = Status.WARNING →
      handleTakeAction machineId (some ld) now s = s) := by
  constructor
  · intro live
    match live with
    | none => simp [isAnomalyDetected]
    | some ld => simp [isAnomalyDetected]
  · intro machineId ld now s h
    simp [handleTakeAction, h]

/-- Witness for C10 at a concrete WARNING reading and a concrete dialog state:
the click is a no-op. -/
theorem take_action_warning_is_noop_witness :
    handleTakeAction "MACHINE_002"
      (some ⟨12, 55, 1/5, Status.WARNING, "2025-01-01T00:00:00Z",
        ⟨60, "GOOD", 20, "scheduled"⟩⟩) 0
      ⟨false, "", "", 0, Priority.MEDIUM⟩ =
      ⟨false, "", "", 0, Priority.MEDIUM⟩ :=
  take_action_warning_is_noop.2 "MACHINE_002" _ 0 _ rfl

/-- `const maxCount = Math.max(...data.map(d => d.count), 1)` from
`ParetoChart.tsx`. -/
def maxCount (data : List ParetoData) : ℕ :=
  (data.map (·.count)).foldr max 1

/-- The three render branches of the `ParetoChart` body. -/
inductive ParetoRender where
  | Loading
  | NoData
  | Chart
deriving DecidableEq, Repr

/-- The `ParetoChart` body: a spinner while loading, the explicit
"No data available for the selected timeframe" branch when `data.length === 0`,
otherwise the chart. -/
def paretoRenderState (loading : Bool) (data : List ParetoData) : ParetoRender :=
  if loading then ParetoRender.Loading
  else if data.length = 0 then ParetoRender.NoData
  else ParetoRender.Chart

/-- C8: with no data the chart shows the explicit no-data state (never an error
branch — the render total function has only the three benign outcomes), and the
bar-height normaliser `maxCount` is at least 1 on every input including the empty
list, so the per-bar division is well-defined. -/
theorem pareto_empty_is_no_data :
    maxCount [] = 1 ∧
    (∀ data : List ParetoData, 1 ≤ maxCount data) ∧
    paretoRenderState false [] = ParetoRender.NoData ∧
    (∀ (loading : Bool) (data : List ParetoData),
      paretoRenderState loading data = ParetoRender.NoData ↔
        loading = false ∧ data = []) := by
  refine ⟨rfl, ?_, rfl, ?_⟩
  · intro data
    induction data with
    | nil => exact le_refl 1
    | cons x xs ih => exact le_trans ih (le_max_right x.count (maxCount xs))
  · intro loading data
    cases loading
    · cases data with
      | nil => simp [paretoRenderState]
      | cons x xs => simp [paretoRenderState]
    · simp [paretoRenderState]
